import Mathlib

/-!
Verification development for the markly-smart-attendance core: the
session/attendance state machine and its rotating-token check-in protocol.

The definitions below are a shallow embedding of the TypeScript source:
* `createSession`, `extendSession`, `endSession`, `generateQRToken`,
  `acknowledgeScan` embed the functions of `src/lib/api.ts`;
* `submitAttendance` embeds the `submit-attendance` edge-function handler;
* `secureQrTokenMint` embeds the token mint of the `secure-qr-token`
  edge function;
* `scheduledAbsentees` / `onDemandAbsentees` embed the absentee
  computations of the `send-absence-notifications` and
  `send-all-absence-notifications` edge functions;
* `repairExpiredStrict` / `repairExpiredIncl` embed the status-repair
  updates run by the scheduled notification sweep.

Times are natural numbers counted in seconds; ids are natural numbers;
secrets are strings.  Database rows are lists of records; a SQL
`UPDATE ... WHERE` is a `List.map` that rewrites exactly the matching rows,
and `.maybeSingle()` / `.single()` row lookups are `List.find?`.
-/

namespace Markly

/-- Session status column: `status IN ('active', 'ended')`. -/
inductive SessStatus
| active
| ended
deriving DecidableEq

/-- Attendance status column:
`status IN ('present', 'pending', 'absent', 'rejected')`. -/
inductive AttStatus
| present
| pending
| absent
| rejected
deriving DecidableEq

/-- A row of the `sessions` table (fields used by the core). -/
structure Session where
  id : Nat
  class_id : Nat
  teacher_id : Nat
  start_time : Nat
  end_time : Nat
  extended : Bool
  qr_secret : String
  status : SessStatus
  notifications_sent : Bool
deriving DecidableEq

/-- A row of the `attendance` table (fields used by the core). -/
structure Attendance where
  id : Nat
  session_id : Nat
  student_id : Nat
  status : AttStatus
  checkin_time : Option Nat
  face_score : Option Nat
  liveness : Option Bool
  photo_url : Option String
  review_reason : Option String
deriving DecidableEq

/-- A row of the `enrollments` table (fields used by the core). -/
structure Enrollment where
  student_id : Nat
  class_id : Nat
deriving DecidableEq

/-- The shared persistent store: the three tables the core touches, plus
fresh-id counters standing for the database's id generation. -/
structure Store where
  sessions : List Session
  attendance : List Attendance
  enrollments : List Enrollment
  nextSessionId : Nat
  nextAttendanceId : Nat
deriving DecidableEq

/-- Calendar day of a timestamp (fixed-length days; `createSession`
compares `start_time` against the `[todayStart, todayEnd)` range of the
current day, which for fixed-length days is equality of `dayOf`). -/
def dayOf (t : Nat) : Nat := t / 86400

/-- The same-day session query of `createSession`:
`.eq('class_id', classId).eq('teacher_id', teacherId)
 .gte('start_time', todayStart).lt('start_time', todayEnd).maybeSingle()`. -/
def sessKeyb (classId teacherId day : Nat) (s : Session) : Bool :=
  decide (s.class_id = classId ∧ s.teacher_id = teacherId ∧ dayOf s.start_time = day)

/-- Lookup of an existing session for this class, teacher and day. -/
def findTodaySession (st : Store) (classId teacherId day : Nat) : Option Session :=
  st.sessions.find? (sessKeyb classId teacherId day)

/-- `createSession` of `src/lib/api.ts`: if a session for this class,
teacher and calendar day exists, reactivate it (status `active`, fresh
secret, `end_time = now + 90` seconds) and do not touch attendance;
otherwise insert a new session and bulk-insert an `absent` attendance row
for every student enrolled in the class.  `newSecret` stands for the
random secret the source draws. -/
def createSession (st : Store) (classId teacherId now : Nat) (newSecret : String) :
    Session × Store :=
  match findTodaySession st classId teacherId (dayOf now) with
  | some s =>
    let updated : Session :=
      { s with status := .active, end_time := now + 90, qr_secret := newSecret }
    (updated,
      { st with
          sessions := st.sessions.map (fun r =>
            if r.id = s.id then
              { r with status := .active, end_time := now + 90, qr_secret := newSecret }
            else r) })
  | none =>
    let newS : Session :=
      { id := st.nextSessionId, class_id := classId, teacher_id := teacherId,
        start_time := now, end_time := now + 90, extended := false,
        qr_secret := newSecret, status := .active, notifications_sent := false }
    let enrolled := st.enrollments.filter (fun e => decide (e.class_id = classId))
    let newRows : List Attendance := enrolled.enum.map (fun p =>
      { id := st.nextAttendanceId + p.1, session_id := newS.id,
        student_id := p.2.student_id, status := .absent, checkin_time := none,
        face_score := none, liveness := none, photo_url := none,
        review_reason := none })
    (newS,
      { st with
          sessions := st.sessions ++ [newS],
          attendance := st.attendance ++ newRows,
          nextSessionId := st.nextSessionId + 1,
          nextAttendanceId := st.nextAttendanceId + enrolled.length })

/-- `extendSession` of `src/lib/api.ts`: fetch the session; if it is
missing or already extended, throw the single generic error
`'Session cannot be extended'`; otherwise push `end_time` 30 seconds past
its stored value and set `extended = true`. -/
def extendSession (st : Store) (sessionId : Nat) : Except String (Session × Store) :=
  match st.sessions.find? (fun s => decide (s.id = sessionId)) with
  | none => .error "Session cannot be extended"
  | some s =>
    if s.extended then .error "Session cannot be extended"
    else
      .ok ({ s with end_time := s.end_time + 30, extended := true },
        { st with
            sessions := st.sessions.map (fun r =>
              if r.id = sessionId then
                { r with end_time := s.end_time + 30, extended := true }
              else r) })

/-- `endSession` of `src/lib/api.ts`: unconditionally set
`status = 'ended'` and `end_time = now` on the session row
(`.single()` errors when the row does not exist). -/
def endSession (st : Store) (sessionId now : Nat) : Except String (Session × Store) :=
  match st.sessions.find? (fun s => decide (s.id = sessionId)) with
  | none => .error "Session not found"
  | some s =>
    .ok ({ s with status := .ended, end_time := now },
      { st with
          sessions := st.sessions.map (fun r =>
            if r.id = sessionId then { r with status := .ended, end_time := now }
            else r) })

/-- A transportable QR token: `btoa(JSON.stringify(...))` of a payload
object.  `malformed` stands for a string `JSON.parse(atob(...))` rejects;
a parsed payload may miss fields (JSON `undefined`), hence the `Option`s.
The client mint writes the slot under the JSON key `slotTime`, the edge
mint under `timeSlot`; no consumer reads either, so both are modelled by
the single `slot` field. -/
inductive Token
| malformed
| payload (sessionId : Option Nat) (slot : Option Nat) (secret : Option String)
    (timestamp : Option Nat)
deriving DecidableEq

/-- The fields recovered from a successfully parsed token. -/
structure TokenFields where
  sessionId : Option Nat
  slot : Option Nat
  secret : Option String
  timestamp : Option Nat
deriving DecidableEq

/-- Token decoding, `JSON.parse(atob(token))`: fails only on a malformed
string, otherwise recovers the payload fields. -/
def decodeToken : Token → Option TokenFields
  | .malformed => none
  | .payload sid slot sec ts => some ⟨sid, slot, sec, ts⟩

/-- `generateQRToken` of `src/lib/api.ts`: payload
`{ sessionId, slotTime: floor(seconds / 10), secret }` (10-second slots,
no timestamp field). -/
def generateQRToken (sessionId : Nat) (qrSecret : String) (now : Nat) : Token :=
  .payload (some sessionId) (some (now / 10)) (some qrSecret) none

/-- The token mint of the `secure-qr-token` edge function: payload
`{ sessionId, secret, timeSlot: floor(seconds / 300), timestamp }`
(5-minute slots). -/
def secureQrTokenMint (sessionId : Nat) (qrSecret : String) (now : Nat) : Token :=
  .payload (some sessionId) (some (now / 300)) (some qrSecret) (some now)

/-- Errors thrown by `acknowledgeScan`, one constructor per `throw`. -/
inductive AckError
| invalidTokenFormat
| tokenMissingSessionId
| sessionNotFoundOrExpired
| invalidQRToken
| sessionHasEnded
| alreadyPresent
deriving DecidableEq

/-- `acknowledgeScan` of `src/lib/api.ts`: decode the token, load the
session by id with `.eq('status', 'active')`, require the token secret to
equal the session's current `qr_secret`, require `now <= end_time`,
then create the attendance row as `pending` if missing, fail with the
already-present error if the row is `present`, and otherwise flip the row
to `pending` with `checkin_time = now`. -/
def acknowledgeScan (st : Store) (token : Token) (studentId now : Nat) :
    Except AckError (Attendance × Store) :=
  match token with
  | .malformed => .error .invalidTokenFormat
  | .payload osid _ osecret _ =>
    match osid with
    | none => .error .tokenMissingSessionId
    | some sid =>
      match st.sessions.find? (fun s => decide (s.id = sid ∧ s.status = .active)) with
      | none => .error .sessionNotFoundOrExpired
      | some session =>
        if osecret ≠ some session.qr_secret then .error .invalidQRToken
        else if session.end_time < now then .error .sessionHasEnded
        else
          match st.attendance.find? (fun a =>
              decide (a.session_id = sid ∧ a.student_id = studentId)) with
          | none =>
            let newRow : Attendance :=
              { id := st.nextAttendanceId, session_id := sid, student_id := studentId,
                status := .pending, checkin_time := some now, face_score := none,
                liveness := none, photo_url := none, review_reason := none }
            .ok (newRow,
              { st with attendance := st.attendance ++ [newRow],
                        nextAttendanceId := st.nextAttendanceId + 1 })
          | some a =>
            if a.status = .present then .error .alreadyPresent
            else
              .ok ({ a with status := .pending, checkin_time := some now },
                { st with attendance := st.attendance.map (fun r =>
                    if r.session_id = sid ∧ r.student_id = studentId then
                      { r with status := .pending, checkin_time := some now }
                    else r) })

/-- Errors returned by the `submit-attendance` edge-function handler, one
constructor per error response on the path modelled here. -/
inductive SubmitError
| invalidSession
| sessionNotActive
| notInTimeWindow
| invalidTokenFormat
| invalidToken
| notEnrolled
deriving DecidableEq

/-- The verification decision of the `submit-attendance` handler:
`liveness === true ? 'present' : 'pending'`.  The strict `=== true` is
modelled by comparing the (possibly null) JSON value with `some true`. -/
def decideStatus (liveness : Option Bool) : AttStatus :=
  if liveness = some true then .present else .pending

/-- The `submit-attendance` edge-function handler (`submitAttendance` in
`src/lib/api.ts` invokes it): load the session by id, require
`status = 'active'`, require `start_time <= now <= end_time`, decode the
token, require its `sessionId` to equal the request's and its secret to
equal the session's current `qr_secret`, require an enrollment of the
caller in the session's class, compute the status from `liveness`, then
update the existing attendance row by id - whatever its current status -
or insert a fresh one.  Photo upload is modelled as always succeeding,
with `photo` the stored reference. -/
def submitAttendance (st : Store) (sessionId : Nat) (token : Token) (userId : Nat)
    (liveness : Option Bool) (photo : Option String) (now : Nat) :
    Except SubmitError (AttStatus × Attendance × Store) :=
  match st.sessions.find? (fun s => decide (s.id = sessionId)) with
  | none => .error .invalidSession
  | some session =>
    if session.status ≠ .active then .error .sessionNotActive
    else if now < session.start_time ∨ session.end_time < now then
      .error .notInTimeWindow
    else
      match decodeToken token with
      | none => .error .invalidTokenFormat
      | some td =>
        if td.sessionId ≠ some sessionId ∨ td.secret ≠ some session.qr_secret then
          .error .invalidToken
        else
          match st.enrollments.find? (fun e =>
              decide (e.student_id = userId ∧ e.class_id = session.class_id)) with
          | none => .error .notEnrolled
          | some _ =>
            let posted := decideStatus liveness
            match st.attendance.find? (fun a =>
                decide (a.student_id = userId ∧ a.session_id = sessionId)) with
            | some a =>
              .ok (posted,
                { a with status := posted, checkin_time := some now,
                         photo_url := photo, face_score := none, liveness := liveness },
                { st with attendance := st.attendance.map (fun r =>
                    if r.id = a.id then
                      { r with status := posted, checkin_time := some now,
                               photo_url := photo, face_score := none,
                               liveness := liveness }
                    else r) })
            | none =>
              let newRow : Attendance :=
                { id := st.nextAttendanceId, session_id := sessionId,
                  student_id := userId, status := posted, checkin_time := some now,
                  face_score := none, liveness := liveness, photo_url := photo,
                  review_reason := none }
              .ok (posted, newRow,
                { st with attendance := st.attendance ++ [newRow],
                          nextAttendanceId := st.nextAttendanceId + 1 })

/-- Student ids counted as attending by the scheduled
`send-absence-notifications` sweep: attendance rows of the session with
`.eq('status', 'present')`. -/
def presentIdsScheduled (st : Store) (sessionId : Nat) : List Nat :=
  (st.attendance.filter (fun a =>
    decide (a.session_id = sessionId ∧ a.status = .present))).map (·.student_id)

/-- Student ids counted as attending by the on-demand
`send-all-absence-notifications` sweep: attendance rows of the session
with `.in('status', ['present', 'pending'])`. -/
def attendedIdsOnDemand (st : Store) (sessionId : Nat) : List Nat :=
  (st.attendance.filter (fun a =>
    decide (a.session_id = sessionId ∧
      (a.status = .present ∨ a.status = .pending)))).map (·.student_id)

/-- Absentees notified per session by the scheduled
`send-absence-notifications` sweep: enrollments of the session's class
whose student is not among `presentIdsScheduled`. -/
def scheduledAbsentees (st : Store) (sess : Session) : List Nat :=
  ((st.enrollments.filter (fun e => decide (e.class_id = sess.class_id))).filter
    (fun e => decide (e.student_id ∉ presentIdsScheduled st sess.id))).map
    (·.student_id)

/-- Absentees notified per session by the on-demand
`send-all-absence-notifications` sweep: enrollments of the session's
class whose student is not among `attendedIdsOnDemand`. -/
def onDemandAbsentees (st : Store) (sess : Session) : List Nat :=
  ((st.enrollments.filter (fun e => decide (e.class_id = sess.class_id))).filter
    (fun e => decide (e.student_id ∉ attendedIdsOnDemand st sess.id))).map
    (·.student_id)

/-- The status repair run by the `send-absence-notifications-scheduled`
function: `UPDATE sessions SET status = 'ended'
WHERE status = 'active' AND end_time < now`. -/
def repairExpiredStrict (sessions : List Session) (now : Nat) : List Session :=
  sessions.map (fun s =>
    if s.status = .active ∧ s.end_time < now then { s with status := .ended } else s)

/-- The status repair run at the start of the `send-absence-notifications`
function it then invokes: `UPDATE sessions SET status = 'ended'
WHERE end_time <= now AND status = 'active'`. -/
def repairExpiredIncl (sessions : List Session) (now : Nat) : List Session :=
  sessions.map (fun s =>
    if s.end_time ≤ now ∧ s.status = .active then { s with status := .ended } else s)

/-- The session-status repair performed by one scheduled sweep: the
scheduled wrapper's update followed by the invoked notification
function's update. -/
def scheduledSweepRepair (st : Store) (now : Nat) : Store :=
  { st with sessions := repairExpiredIncl (repairExpiredStrict st.sessions now) now }

/-- A sequence of `startSession` calls for one class and teacher: each
call carries its wall-clock time and the fresh secret drawn. -/
def runCreates (st : Store) (classId teacherId : Nat) (calls : List (Nat × String)) :
    Store :=
  calls.foldl (fun acc x => (createSession acc classId teacherId x.1 x.2).2) st

/-- Number of session rows stored for one (class, teacher, calendar day). -/
def countKey (l : List Session) (classId teacherId day : Nat) : Nat :=
  (l.filter (sessKeyb classId teacherId day)).length

/-- The attendance row carried by a successful submission response. -/
def submittedRow (r : Except SubmitError (AttStatus × Attendance × Store)) :
    Option Attendance :=
  match r with
  | .ok (_, row, _) => some row
  | .error _ => none

/-- The session row carried by a successful `endSession` response. -/
def endedSessionOf (r : Except String (Session × Store)) : Option Session :=
  match r with
  | .ok (s, _) => some s
  | .error _ => none

/-- Concrete store: one active session (window `[0, 90]`, secret `sek`)
whose single enrolled student already holds a `present` record. -/
def stC1 : Store :=
  { sessions := [⟨0, 10, 20, 0, 90, false, "sek", .active, false⟩],
    attendance := [⟨0, 0, 1, .present, some 5, none, some true, none, none⟩],
    enrollments := [⟨1, 10⟩],
    nextSessionId := 1, nextAttendanceId := 1 }

/-- Concrete store with no sessions at all. -/
def stNoSessions : Store := ⟨[], [], [], 0, 0⟩

/-- Concrete store whose only session has already been extended. -/
def stExtendedOnce : Store :=
  ⟨[⟨0, 10, 20, 0, 120, true, "x", .active, false⟩], [], [], 1, 0⟩

/-- Concrete store whose only session already ended at time 100. -/
def stEndedAt100 : Store :=
  ⟨[⟨0, 10, 20, 0, 100, false, "x", .ended, false⟩], [], [], 1, 0⟩

/-- Concrete store whose only session is still `active` although its
`end_time` (100) has passed. -/
def stStaleActive : Store :=
  ⟨[⟨0, 10, 20, 0, 100, false, "x", .active, false⟩], [], [], 1, 0⟩

/-- Concrete store: an ended session whose single enrolled student holds
a `pending` record. -/
def stC8 : Store :=
  ⟨[], [⟨0, 0, 1, .pending, none, none, none, none, none⟩], [⟨1, 10⟩], 0, 0⟩

/-- The session processed by the sweeps over `stC8`. -/
def sessC8 : Session := ⟨0, 10, 20, 0, 50, false, "x", .ended, false⟩

/-- Concrete store with one enrollment and no sessions, the start state
of the `runCreates` witness. -/
def stW : Store := ⟨[], [], [⟨1, 10⟩], 0, 0⟩

/-- `find?` commutes with a map that does not change the predicate. -/
theorem find?_map_eq {α : Type} (l : List α) (f : α → α) (p : α → Bool)
    (hf : ∀ a, p (f a) = p a) : (l.map f).find? p = (l.find? p).map f := by
  induction l with
  | nil => rfl
  | cons hd tl ih =>
    simp only [List.map_cons, List.find?]
    rw [hf hd]
    cases hp : p hd
    · simpa using ih
    · rfl

/-!
Claim C5.  The verification decision of the `submit-attendance` handler
is `liveness === true ? 'present' : 'pending'`.
-/

/-- Claim C5: the verification decision is a pure function of the
liveness signal: `liveness = true` yields `present`, any other liveness
value yields `pending`; every successful automatic submission carries
exactly this decided status, and no status other than `present` or
`pending` is reachable from it. -/
theorem c5_liveness_gates_present :
    decideStatus (some true) = AttStatus.present
    ∧ (∀ l : Option Bool, l ≠ some true → decideStatus l = AttStatus.pending)
    ∧ (∀ l : Option Bool,
        decideStatus l = AttStatus.present ∨ decideStatus l = AttStatus.pending)
    ∧ (∀ (st : Store) (sessionId : Nat) (token : Token) (userId : Nat)
        (liveness : Option Bool) (photo : Option String) (now : Nat)
        (s : AttStatus) (row : Attendance) (st2 : Store),
        submitAttendance st sessionId token userId liveness photo now
            = .ok (s, row, st2) →
        s = decideStatus liveness ∧ row.status = decideStatus liveness) := by
  refine ⟨rfl, ?_, ?_, ?_⟩
  · intro l h
    simp [decideStatus, h]
  · intro l
    by_cases h : l = some true
    · exact Or.inl (by simp [decideStatus, h])
    · exact Or.inr (by simp [decideStatus, h])
  · intro st sessionId token userId liveness photo now s row st2 h
    unfold submitAttendance at h
    split at h
    · simp at h
    · split at h
      · simp at h
      · split at h
        · simp at h
        · split at h
          · simp at h
          · split at h
            · simp at h
            · split at h
              · simp at h
              · split at h
                · simp only [Except.ok.injEq, Prod.mk.injEq] at h
                  exact ⟨h.1.symm, by rw [← h.2.1]⟩
                · simp only [Except.ok.injEq, Prod.mk.injEq] at h
                  exact ⟨h.1.symm, by rw [← h.2.1]⟩

/-- Witness for C5 at concrete inputs. -/
theorem c5_witness : decideStatus none = AttStatus.pending :=
  c5_liveness_gates_present.2.1 none (by decide)

/-!
Claim C9.  Token codec round trip.  The client mint (`generateQRToken`)
uses 10-second slots, but the `secure-qr-token` edge-function mint uses
300-second slots, so the claim that every mint path uses the 10-second
interval fails.
-/

/-- Counterexample to C9 as stated: at time 10 the `secure-qr-token`
mint path embeds rotation slot `10 / 300 = 0`, not `10 / 10 = 1`, so not
every mint path uses the 10-second rotation interval. -/
theorem c9_counterexample :
    (decodeToken (secureQrTokenMint 0 "s" 10)).map TokenFields.slot = some (some 0)
    ∧ (10 : Nat) / 10 = 1 ∧ (0 : Nat) ≠ 1 := by decide

/-- Claim C9 as amended: decoding a minted token always succeeds and
returns exactly the minted triple, with rotation slot `t / 10` for the
client mint path but `t / 300` for the `secure-qr-token` mint path. -/
theorem c9_roundtrip_amended :
    (∀ (sid : Nat) (secret : String) (t : Nat),
        decodeToken (generateQRToken sid secret t)
          = some ⟨some sid, some (t / 10), some secret, none⟩)
    ∧ (∀ (sid : Nat) (secret : String) (t : Nat),
        decodeToken (secureQrTokenMint sid secret t)
          = some ⟨some sid, some (t / 300), some secret, some t⟩) :=
  ⟨fun _ _ _ => rfl, fun _ _ _ => rfl⟩

/-!
Claim C10.  The scheduled sweep first marks every stored active session
whose `end_time` has passed as `ended`, with no teacher or class filter.
-/

/-- Claim C10: after the scheduled sweep's status repair, no stored
session whose `end_time` is earlier than now retains status `active` -
the update ranges over all stored sessions, across all teachers and
classes. -/
theorem c10_sweep_status_repair :
    ∀ (st : Store) (now : Nat) (s : Session),
      s ∈ (scheduledSweepRepair st now).sessions → s.end_time < now →
      s.status = SessStatus.ended := by
  have hincl : ∀ (l : List Session) (now : Nat) (s : Session),
      s ∈ repairExpiredIncl l now → s.end_time < now →
      s.status = SessStatus.ended := by
    intro l now s hs hlt
    simp only [repairExpiredIncl, List.mem_map] at hs
    obtain ⟨q, _, rfl⟩ := hs
    by_cases h : q.end_time ≤ now ∧ q.status = SessStatus.active
    · simp [h]
    · simp only [if_neg h] at hlt ⊢
      cases hq : q.status with
      | ended => rfl
      | active => exact absurd ⟨Nat.le_of_lt hlt, hq⟩ h
  intro st now s hs hlt
  exact hincl (repairExpiredStrict st.sessions now) now s hs hlt

/-- Witness for C10 at concrete inputs: the stale active session of
`stStaleActive` is `ended` after the sweep repair at time 200. -/
theorem c10_witness :
    (⟨0, 10, 20, 0, 100, false, "x", SessStatus.ended, false⟩ : Session).status
      = SessStatus.ended :=
  c10_sweep_status_repair stStaleActive 200
    ⟨0, 10, 20, 0, 100, false, "x", SessStatus.ended, false⟩ (by decide) (by decide)

/-!
Claim C6.  `extendSession` throws the single generic error
`'Session cannot be extended'` both when the session is missing and when
it is already extended: the two failures are reported but they are not
distinguishable, so the claim of a distinguishable `NotFound` fails.
-/

/-- Counterexample to C6 as stated: extending a missing session
(`stNoSessions`, id 99) and re-extending an already-extended session
(`stExtendedOnce`, id 0) produce the identical error value, so the
missing-session failure is not distinguishable from the
already-extended failure. -/
theorem c6_counterexample :
    extendSession stNoSessions 99 = .error "Session cannot be extended"
    ∧ extendSession stExtendedOnce 0 = .error "Session cannot be extended" :=
  ⟨rfl, rfl⟩

/-- Claim C6 as amended: extending a missing session fails - it is
reported, never silently defaulted - but with the same generic
`'Session cannot be extended'` error that a double extension raises. -/
theorem c6_extend_missing_reported :
    (∀ (st : Store) (sid : Nat),
        st.sessions.find? (fun r => decide (r.id = sid)) = none →
        extendSession st sid = .error "Session cannot be extended")
    ∧ (∀ (st : Store) (sid : Nat) (s : Session),
        st.sessions.find? (fun r => decide (r.id = sid)) = some s →
        s.extended = true →
        extendSession st sid = .error "Session cannot be extended") := by
  constructor
  · intro st sid h
    unfold extendSession
    rw [h]
  · intro st sid s h hext
    unfold extendSession
    rw [h]
    simp [hext]

/-- Witness for C6 at concrete inputs. -/
theorem c6_witness :
    extendSession stNoSessions 7 = .error "Session cannot be extended" :=
  c6_extend_missing_reported.1 stNoSessions 7 (by decide)

/-!
Claim C7.  `endSession` updates `status = 'ended'`, `end_time = now`
unconditionally: it does not clamp downward only, and re-ending an
already-ended session rewrites `end_time`.
-/

/-- Counterexample to C7 as stated: `stEndedAt100` stores an
already-ended session with `end_time = 100`; calling `endSession` at
time 200 succeeds and rewrites `end_time` to 200, moving it later than
its stored value instead of leaving the ended session unchanged. -/
theorem c7_counterexample :
    stEndedAt100.sessions.map (fun s => (s.status, s.end_time))
        = [(SessStatus.ended, 100)]
    ∧ (endedSessionOf (endSession stEndedAt100 0 200)).map Session.end_time
        = some 200
    ∧ (200 : Nat) ≠ 100 ∧ ¬ (200 : Nat) ≤ 100 := by decide

/-- Claim C7 as amended: `endSession` on an existing session always
succeeds and sets `status = ended` and `end_time = now` unconditionally -
`end_time` can move later as well as earlier, and re-ending an
already-ended session resets its `end_time` to the current time rather
than leaving it unchanged. -/
theorem c7_end_unconditional :
    ∀ (st : Store) (sid now : Nat) (s : Session),
      st.sessions.find? (fun r => decide (r.id = sid)) = some s →
      ∃ st2,
        endSession st sid now
            = .ok ({ s with status := SessStatus.ended, end_time := now }, st2)
        ∧ ∀ r ∈ st2.sessions, r.id = sid →
            r.status = SessStatus.ended ∧ r.end_time = now := by
  intro st sid now s h
  refine ⟨{ st with sessions := st.sessions.map (fun r =>
      if r.id = sid then { r with status := SessStatus.ended, end_time := now }
      else r) }, ?_, ?_⟩
  · unfold endSession
    rw [h]
  · intro r hr hid
    simp only [List.mem_map] at hr
    obtain ⟨q, _, rfl⟩ := hr
    by_cases h2 : q.id = sid
    · simp [h2]
    · simp only [if_neg h2] at hid
      exact absurd hid h2

/-- Witness for C7 at concrete inputs. -/
theorem c7_witness :
    ∃ st2,
      endSession stEndedAt100 0 200
          = .ok (({ (⟨0, 10, 20, 0, 100, false, "x", SessStatus.ended, false⟩ : Session)
              with status := SessStatus.ended, end_time := 200 }), st2)
      ∧ ∀ r ∈ st2.sessions, r.id = 0 →
          r.status = SessStatus.ended ∧ r.end_time = 200 :=
  c7_end_unconditional stEndedAt100 0 200
    ⟨0, 10, 20, 0, 100, false, "x", SessStatus.ended, false⟩ (by decide)

/-!
Claim C4.  Extension is one-shot: the first `extendSession` pushes
`end_time` 30 seconds and sets the flag, the second fails and leaves the
stored `end_time` at its once-extended value.
-/

/-- Claim C4: for a stored session with `extended = false`, `extendSession`
succeeds, adds exactly 30 seconds to `end_time` and sets `extended = true`;
a second `extendSession` on the resulting store fails (with the error the
source raises for an already-extended session), and the stored `end_time`
after both attempts equals the value after the single successful one. -/
theorem c4_extend_one_shot :
    ∀ (st : Store) (sid : Nat) (s : Session),
      st.sessions.find? (fun r => decide (r.id = sid)) = some s →
      s.extended = false →
      ∃ st2,
        extendSession st sid
            = .ok ({ s with end_time := s.end_time + 30, extended := true }, st2)
        ∧ extendSession st2 sid = .error "Session cannot be extended"
        ∧ ∀ r ∈ st2.sessions, r.id = sid → r.end_time = s.end_time + 30 := by
  intro st sid s h hext
  have hsid : s.id = sid := by
    have hp := List.find?_some h
    simpa using hp
  have hf : ∀ a : Session,
      (fun r : Session => decide (r.id = sid))
        ((fun r : Session =>
          if r.id = sid then { r with end_time := s.end_time + 30, extended := true }
          else r) a)
      = (fun r : Session => decide (r.id = sid)) a := by
    intro a
    by_cases ha : a.id = sid <;> simp [ha]
  have hmap := find?_map_eq st.sessions
    (fun r : Session =>
      if r.id = sid then { r with end_time := s.end_time + 30, extended := true }
      else r)
    (fun r : Session => decide (r.id = sid)) hf
  refine ⟨{ st with sessions := st.sessions.map (fun r =>
      if r.id = sid then { r with end_time := s.end_time + 30, extended := true }
      else r) }, ?_, ?_, ?_⟩
  · unfold extendSession
    rw [h]
    simp [hext]
  · unfold extendSession
    dsimp only
    rw [hmap, h]
    simp [hsid]
  · intro r hr hid
    simp only [List.mem_map] at hr
    obtain ⟨q, _, rfl⟩ := hr
    by_cases h2 : q.id = sid
    · simp [h2]
    · simp only [if_neg h2] at hid
      exact absurd hid h2

/-- Witness for C4 at concrete inputs: the unextended active session of
`stC1` extends once and only once. -/
theorem c4_witness :
    ∃ st2,
      extendSession stC1 0
          = .ok ({ (⟨0, 10, 20, 0, 90, false, "sek", SessStatus.active, false⟩ : Session)
              with end_time := 90 + 30, extended := true }, st2)
      ∧ extendSession st2 0 = .error "Session cannot be extended"
      ∧ ∀ r ∈ st2.sessions, r.id = 0 → r.end_time = 90 + 30 :=
  c4_extend_one_shot stC1 0
    ⟨0, 10, 20, 0, 90, false, "sek", SessStatus.active, false⟩ (by decide) (by decide)

/-!
Claim C2.  Token validity is secret-bound: a token whose embedded secret
differs from the session's current `qr_secret` is rejected by both
check-in operations, and no successful check-in ever carries a mismatched
secret.
-/

/-- Claim C2: if the token's secret differs from the session's current
`qr_secret`, `acknowledgeScan` fails with its invalid-token error and the
`submit-attendance` handler fails with its invalid-token error, even when
the session id matches and the session is active and inside its time
window; conversely every accepted check-in carries exactly the session's
current secret, so no wrong-secret token is ever accepted. -/
theorem c2_secret_bound :
    (∀ (st : Store) (sid : Nat) (oslot : Option Nat) (osecret : Option String)
        (ots : Option Nat) (uid now : Nat) (session : Session),
        st.sessions.find? (fun s =>
            decide (s.id = sid ∧ s.status = SessStatus.active)) = some session →
        osecret ≠ some session.qr_secret →
        acknowledgeScan st (.payload (some sid) oslot osecret ots) uid now
          = .error .invalidQRToken)
    ∧ (∀ (st : Store) (sessionId : Nat) (token : Token) (td : TokenFields)
        (userId : Nat) (liveness : Option Bool) (photo : Option String)
        (now : Nat) (session : Session),
        st.sessions.find? (fun s => decide (s.id = sessionId)) = some session →
        session.status = SessStatus.active →
        session.start_time ≤ now → now ≤ session.end_time →
        decodeToken token = some td →
        td.secret ≠ some session.qr_secret →
        submitAttendance st sessionId token userId liveness photo now
          = .error .invalidToken)
    ∧ (∀ (st : Store) (sid : Nat) (oslot : Option Nat) (osecret : Option String)
        (ots : Option Nat) (uid now : Nat) (out : Attendance × Store),
        acknowledgeScan st (.payload (some sid) oslot osecret ots) uid now
          = .ok out →
        ∃ session,
          st.sessions.find? (fun s =>
              decide (s.id = sid ∧ s.status = SessStatus.active)) = some session
          ∧ osecret = some session.qr_secret)
    ∧ (∀ (st : Store) (sessionId : Nat) (token : Token) (userId : Nat)
        (liveness : Option Bool) (photo : Option String) (now : Nat)
        (out : AttStatus × Attendance × Store),
        submitAttendance st sessionId token userId liveness photo now = .ok out →
        ∃ session td,
          st.sessions.find? (fun s => decide (s.id = sessionId)) = some session
          ∧ decodeToken token = some td
          ∧ td.secret = some session.qr_secret) := by
  refine ⟨?_, ?_, ?_, ?_⟩
  · intro st sid oslot osecret ots uid now session hfind hsec
    unfold acknowledgeScan
    dsimp only
    rw [hfind]
    exact if_pos hsec
  · intro st sessionId token td userId liveness photo now session hfind hstatus
      hstart hend hdec hsec
    have hnw : ¬ (now < session.start_time ∨ session.end_time < now) := by omega
    simp [submitAttendance, hfind, hstatus, hnw, hdec, hsec]
  · intro st sid oslot osecret ots uid now out h
    unfold acknowledgeScan at h
    dsimp only at h
    split at h
    next hfind => simp at h
    next session hfind =>
      split at h
      next hsec => simp at h
      next hsec => exact ⟨session, hfind, not_not.mp hsec⟩
  · intro st sessionId token userId liveness photo now out h
    unfold submitAttendance at h
    split at h
    next hfind => simp at h
    next session hfind =>
      split at h
      next hst => simp at h
      next hst =>
        split at h
        next htime => simp at h
        next htime =>
          split at h
          next hdec => simp at h
          next td hdec =>
            split at h
            next htok => simp at h
            next htok =>
              push_neg at htok
              exact ⟨session, td, hfind, hdec, htok.2⟩

/-- Witness for C2 at concrete inputs: over `stC1` (current secret `sek`)
a token embedding the stale secret `old` is rejected by both operations. -/
theorem c2_witness :
    acknowledgeScan stC1 (.payload (some 0) (some 5) (some "old") none) 1 50
        = .error .invalidQRToken
    ∧ submitAttendance stC1 0 (.payload (some 0) (some 5) (some "old") none)
        1 (some true) none 50 = .error .invalidToken :=
  ⟨c2_secret_bound.1 stC1 0 (some 5) (some "old") none 1 50
      ⟨0, 10, 20, 0, 90, false, "sek", .active, false⟩ (by decide) (by decide),
    c2_secret_bound.2.1 stC1 0 (.payload (some 0) (some 5) (some "old") none)
      ⟨some 0, some 5, some "old", none⟩ 1 (some true) none 50
      ⟨0, 10, 20, 0, 90, false, "sek", .active, false⟩ (by decide) (by decide)
      (by decide) (by decide) (by decide) (by decide)⟩

/-!
Claim C1.  Sticky Present.  `acknowledgeScan` does refuse to touch a
`present` record (its already-present error), but the `submit-attendance`
handler updates an existing record with the freshly computed status
without checking whether it is `present`: a submission with liveness
other than `true` moves a `present` record back to `pending` through the
automatic path, so the claim as stated fails.
-/

/-- Counterexample to C1 as stated: over `stC1` the student's record for
the active session is `present`, yet `submit-attendance` with a valid
current-secret token and `liveness = false` succeeds and overwrites the
record's status to `pending` - the automatic path moves the status away
from `Present`. -/
theorem c1_counterexample :
    (stC1.attendance.map (fun a => (a.student_id, a.status)))
        = [(1, AttStatus.present)]
    ∧ (submittedRow (submitAttendance stC1 0 (generateQRToken 0 "sek" 50) 1
          (some false) none 50)).map Attendance.status = some AttStatus.pending
    ∧ AttStatus.pending ≠ AttStatus.present := by decide

/-- Claim C1 as amended: once an AttendanceRecord is `present`,
`acknowledgeScan` with a valid current-secret token fails with the
already-present error and changes nothing; but `submitVerification` does
not preserve `Present`: it overwrites the record with the freshly
computed decision, so a submission whose liveness input is not `true`
moves the status from `present` to `pending` through the automatic
path. -/
theorem c1_present_sticky_amended :
    (∀ (st : Store) (sid : Nat) (oslot ots : Option Nat) (uid now : Nat)
        (session : Session) (a : Attendance),
        st.sessions.find? (fun s =>
            decide (s.id = sid ∧ s.status = SessStatus.active)) = some session →
        now ≤ session.end_time →
        st.attendance.find? (fun r =>
            decide (r.session_id = sid ∧ r.student_id = uid)) = some a →
        a.status = AttStatus.present →
        acknowledgeScan st (.payload (some sid) oslot (some session.qr_secret) ots)
            uid now = .error .alreadyPresent)
    ∧ (∀ (st : Store) (sid : Nat) (oslot ots : Option Nat) (uid now : Nat)
        (session : Session) (a : Attendance) (liveness : Option Bool)
        (photo : Option String),
        st.sessions.find? (fun s => decide (s.id = sid)) = some session →
        session.status = SessStatus.active →
        session.start_time ≤ now → now ≤ session.end_time →
        (st.enrollments.find? (fun e =>
            decide (e.student_id = uid ∧ e.class_id = session.class_id))).isSome →
        st.attendance.find? (fun r =>
            decide (r.student_id = uid ∧ r.session_id = sid)) = some a →
        a.status = AttStatus.present →
        liveness ≠ some true →
        ∃ st2,
          submitAttendance st sid
              (.payload (some sid) oslot (some session.qr_secret) ots)
              uid liveness photo now
            = .ok (AttStatus.pending,
                { a with status := AttStatus.pending, checkin_time := some now,
                         photo_url := photo, face_score := none,
                         liveness := liveness }, st2)) := by
  constructor
  · intro st sid oslot ots uid now session a hfind hnow hatt hpres
    unfold acknowledgeScan
    dsimp only
    rw [hfind]
    dsimp only
    rw [if_neg (by simp)]
    rw [if_neg (by omega)]
    rw [hatt]
    dsimp only
    exact if_pos hpres
  · intro st sid oslot ots uid now session a liveness photo hfind hstatus hstart
      hend henr hatt hpres hliv
    obtain ⟨e, he⟩ := Option.isSome_iff_exists.mp henr
    have hdec : decideStatus liveness = AttStatus.pending := by
      simp [decideStatus, hliv]
    refine ⟨{ st with attendance := st.attendance.map (fun r =>
        if r.id = a.id then
          { r with status := AttStatus.pending, checkin_time := some now,
                   photo_url := photo, face_score := none, liveness := liveness }
        else r) }, ?_⟩
    unfold submitAttendance
    dsimp only
    rw [hfind]
    dsimp only
    rw [if_neg (by simp [hstatus])]
    rw [if_neg (by omega)]
    dsimp only [decodeToken]
    rw [if_neg (by simp)]
    rw [he]
    dsimp only
    rw [hatt, hdec]

/-- Witness for C1 (amended) at concrete inputs: over `stC1` a re-scan is
refused as already-present, and a `liveness = false` submission downgrades
the `present` record to `pending`. -/
theorem c1_witness :
    acknowledgeScan stC1 (.payload (some 0) (some 5) (some "sek") none) 1 50
        = .error .alreadyPresent
    ∧ ∃ st2,
        submitAttendance stC1 0 (.payload (some 0) (some 5) (some "sek") none)
            1 (some false) none 50
          = .ok (AttStatus.pending,
              { (⟨0, 0, 1, AttStatus.present, some 5, none, some true, none, none⟩
                  : Attendance) with
                status := AttStatus.pending, checkin_time := some 50,
                photo_url := none, face_score := none, liveness := some false },
              st2) :=
  ⟨c1_present_sticky_amended.1 stC1 0 (some 5) none 1 50
      ⟨0, 10, 20, 0, 90, false, "sek", .active, false⟩
      ⟨0, 0, 1, AttStatus.present, some 5, none, some true, none, none⟩
      (by decide) (by decide) (by decide) (by decide),
    c1_present_sticky_amended.2 stC1 0 (some 5) none 1 50
      ⟨0, 10, 20, 0, 90, false, "sek", .active, false⟩
      ⟨0, 0, 1, AttStatus.present, some 5, none, some true, none, none⟩
      (some false) none
      (by decide) (by decide) (by decide) (by decide) (by decide) (by decide)
      (by decide) (by decide)⟩

/-!
Claim C8.  Absentee computation.  The on-demand teacher-triggered sweep
excludes students whose record is `present` or `pending`, but the
scheduled sweep excludes only `present`: a student with a `pending`
record is notified as absent by the scheduled sweep, so the claim as
stated fails for the scheduled variant.
-/

/-- Counterexample to C8 as stated: over `stC8` the single enrolled
student holds a `pending` record for the processed session, yet the
scheduled sweep's absentee list is `[1]` - the pending student is
notified as absent - while the on-demand sweep's list is empty. -/
theorem c8_counterexample :
    (stC8.attendance.map (fun a => (a.student_id, a.session_id, a.status)))
        = [(1, 0, AttStatus.pending)]
    ∧ scheduledAbsentees stC8 sessC8 = [1]
    ∧ onDemandAbsentees stC8 sessC8 = [] := by decide

/-- Claim C8 as amended: the on-demand sweep notifies exactly the
enrolled students of the session's class with no attendance record of
status `present` or `pending` for the session, while the scheduled sweep
notifies exactly the enrolled students with no `present` record - so a
student whose record is `pending` is notified as absent by the scheduled
variant, though never by the on-demand variant. -/
theorem c8_absentee_computation :
    (∀ (st : Store) (sess : Session) (u : Nat),
        u ∈ onDemandAbsentees st sess ↔
          (∃ e ∈ st.enrollments, e.class_id = sess.class_id ∧ e.student_id = u)
          ∧ ¬ ∃ a ∈ st.attendance, a.session_id = sess.id ∧ a.student_id = u
              ∧ (a.status = AttStatus.present ∨ a.status = AttStatus.pending))
    ∧ (∀ (st : Store) (sess : Session) (u : Nat),
        u ∈ scheduledAbsentees st sess ↔
          (∃ e ∈ st.enrollments, e.class_id = sess.class_id ∧ e.student_id = u)
          ∧ ¬ ∃ a ∈ st.attendance, a.session_id = sess.id ∧ a.student_id = u
              ∧ a.status = AttStatus.present) := by
  constructor
  · intro st sess u
    simp only [onDemandAbsentees, attendedIdsOnDemand, List.mem_map,
      List.mem_filter, decide_eq_true_eq]
    constructor
    · rintro ⟨e, ⟨⟨he, hcls⟩, hnot⟩, rfl⟩
      refine ⟨⟨e, he, hcls, rfl⟩, ?_⟩
      rintro ⟨a, ha, hsess, hstud, hstat⟩
      exact hnot ⟨a, ⟨ha, hsess, hstat⟩, hstud⟩
    · rintro ⟨⟨e, he, hcls, rfl⟩, hnot⟩
      refine ⟨e, ⟨⟨he, hcls⟩, ?_⟩, rfl⟩
      rintro ⟨a, ⟨ha, hsess, hstat⟩, hstud⟩
      exact hnot ⟨a, ha, hsess, hstud, hstat⟩
  · intro st sess u
    simp only [scheduledAbsentees, presentIdsScheduled, List.mem_map,
      List.mem_filter, decide_eq_true_eq]
    constructor
    · rintro ⟨e, ⟨⟨he, hcls⟩, hnot⟩, rfl⟩
      refine ⟨⟨e, he, hcls, rfl⟩, ?_⟩
      rintro ⟨a, ha, hsess, hstud, hstat⟩
      exact hnot ⟨a, ⟨ha, hsess, hstat⟩, hstud⟩
    · rintro ⟨⟨e, he, hcls, rfl⟩, hnot⟩
      refine ⟨e, ⟨⟨he, hcls⟩, ?_⟩, rfl⟩
      rintro ⟨a, ⟨ha, hsess, hstat⟩, hstud⟩
      exact hnot ⟨a, ha, hsess, hstud, hstat⟩

/-!
Claim C3.  Single active session per day: reactivation never inserts a
second row for the same (class, teacher, day) and never touches
attendance; fresh creation bulk-inserts `absent` rows.
-/

/-- The per-row update of the reactivation branch does not change the
(class, teacher, day) key of any session row. -/
theorem sessKeyb_reactivate (c t d now sid : Nat) (sec : String) (r : Session) :
    sessKeyb c t d
      (if r.id = sid then
        { r with status := SessStatus.active, end_time := now + 90, qr_secret := sec }
      else r)
    = sessKeyb c t d r := by
  by_cases h : r.id = sid <;> simp [h, sessKeyb]

/-- A map that preserves the key predicate preserves the per-key count. -/
theorem countKey_map_keep (l : List Session) (f : Session → Session) (c t d : Nat)
    (hf : ∀ r, sessKeyb c t d (f r) = sessKeyb c t d r) :
    countKey (l.map f) c t d = countKey l c t d := by
  induction l with
  | nil => rfl
  | cons hd tl ih =>
    unfold countKey at *
    simp only [List.map_cons]
    rw [List.filter_cons, List.filter_cons, hf hd]
    cases sessKeyb c t d hd <;> simp [ih]

/-- Reactivation step: attendance untouched, row count unchanged, and
every per-key session count unchanged. -/
theorem createSession_reactivate_step (st : Store) (c t now : Nat) (sec : String)
    (s : Session) (h : findTodaySession st c t (dayOf now) = some s) :
    (createSession st c t now sec).2.attendance = st.attendance
    ∧ (createSession st c t now sec).2.sessions.length = st.sessions.length
    ∧ ∀ d, countKey (createSession st c t now sec).2.sessions c t d
        = countKey st.sessions c t d := by
  unfold createSession
  rw [h]
  dsimp only
  refine ⟨rfl, by simp, ?_⟩
  intro d
  exact countKey_map_keep st.sessions _ c t d
    (fun r => sessKeyb_reactivate c t d now s.id sec r)

/-- Fresh-creation step: afterwards exactly one session row carries the
key of the call's day, and every attendance row is either an old one or a
freshly inserted `absent` row. -/
theorem createSession_fresh_step (st : Store) (c t now : Nat) (sec : String)
    (h : findTodaySession st c t (dayOf now) = none) :
    countKey (createSession st c t now sec).2.sessions c t (dayOf now) = 1
    ∧ ∀ a ∈ (createSession st c t now sec).2.attendance,
        a ∈ st.attendance ∨ a.status = AttStatus.absent := by
  unfold createSession
  rw [h]
  dsimp only
  constructor
  · have h0 : st.sessions.filter (sessKeyb c t (dayOf now)) = [] := by
      rw [List.filter_eq_nil_iff]
      intro x hx
      have hn := List.find?_eq_none.mp h x hx
      simpa using hn
    unfold countKey
    rw [List.filter_append, h0]
    simp [sessKeyb]
  · intro a ha
    rw [List.mem_append] at ha
    cases ha with
    | inl h1 => exact Or.inl h1
    | inr h2 =>
      right
      simp only [List.mem_map] at h2
      obtain ⟨p, _, rfl⟩ := h2
      rfl

/-- Over a same-day sequence of `createSession` calls the per-key session
count stays at most one, and if a session for the key already existed the
attendance table is never touched. -/
theorem runCreates_single (c t d : Nat) (calls : List (Nat × String)) (st : Store)
    (hday : ∀ x ∈ calls, dayOf x.1 = d)
    (hinv : countKey st.sessions c t d ≤ 1) :
    countKey (runCreates st c t calls).sessions c t d ≤ 1
    ∧ (1 ≤ countKey st.sessions c t d →
        (runCreates st c t calls).attendance = st.attendance) := by
  induction calls generalizing st with
  | nil => exact ⟨hinv, fun _ => rfl⟩
  | cons hd tl ih =>
    have hd1 : dayOf hd.1 = d := hday hd (by simp)
    have hrest : ∀ x ∈ tl, dayOf x.1 = d := fun x hx => hday x (by simp [hx])
    have hstep : runCreates st c t (hd :: tl)
        = runCreates (createSession st c t hd.1 hd.2).2 c t tl := rfl
    cases hfind : findTodaySession st c t (dayOf hd.1) with
    | some s =>
      obtain ⟨hatt, _, hcount⟩ :=
        createSession_reactivate_step st c t hd.1 hd.2 s hfind
      have hinv2 : countKey (createSession st c t hd.1 hd.2).2.sessions c t d ≤ 1 := by
        rw [hcount d]; exact hinv
      obtain ⟨ih1, ih2⟩ := ih (createSession st c t hd.1 hd.2).2 hrest hinv2
      refine ⟨by rw [hstep]; exact ih1, fun hpos => ?_⟩
      have hpos2 : 1 ≤ countKey (createSession st c t hd.1 hd.2).2.sessions c t d := by
        rw [hcount d]; exact hpos
      rw [hstep, ih2 hpos2, hatt]
    | none =>
      obtain ⟨hone, _⟩ := createSession_fresh_step st c t hd.1 hd.2 hfind
      rw [hd1] at hone
      have hinv2 : countKey (createSession st c t hd.1 hd.2).2.sessions c t d ≤ 1 :=
        le_of_eq hone
      obtain ⟨ih1, _⟩ := ih (createSession st c t hd.1 hd.2).2 hrest hinv2
      refine ⟨by rw [hstep]; exact ih1, fun hpos => ?_⟩
      have hfind2 := hfind
      rw [hd1] at hfind2
      have h0 : countKey st.sessions c t d = 0 := by
        unfold countKey
        rw [List.length_eq_zero, List.filter_eq_nil_iff]
        intro x hx
        have hn := List.find?_eq_none.mp hfind2 x hx
        simpa using hn
      rw [h0] at hpos
      omega

/-- Claim C3: starting from a store holding at most one session for a
given (class, teacher, day), any same-day sequence of `startSession`
calls leaves at most one session row for that key; once a session for
the key exists, later calls reactivate it without touching attendance;
a reactivation returns the stored session with status `active`, a fresh
secret and `end_time = now + 90` seconds without inserting a row, and
only a first creation bulk-inserts attendance rows, all with status
`absent`. -/
theorem c3_single_session_per_day (c t d : Nat) (calls : List (Nat × String))
    (st : Store) (hday : ∀ x ∈ calls, dayOf x.1 = d)
    (hinv : countKey st.sessions c t d ≤ 1) :
    (countKey (runCreates st c t calls).sessions c t d ≤ 1
      ∧ (1 ≤ countKey st.sessions c t d →
          (runCreates st c t calls).attendance = st.attendance))
    ∧ (∀ (st2 : Store) (now : Nat) (sec : String) (s : Session),
        findTodaySession st2 c t (dayOf now) = some s →
        (createSession st2 c t now sec).1
            = { s with status := SessStatus.active, end_time := now + 90,
                       qr_secret := sec }
          ∧ (createSession st2 c t now sec).2.attendance = st2.attendance
          ∧ (createSession st2 c t now sec).2.sessions.length
              = st2.sessions.length)
    ∧ (∀ (st2 : Store) (now : Nat) (sec : String),
        findTodaySession st2 c t (dayOf now) = none →
        ∀ a ∈ (createSession st2 c t now sec).2.attendance,
          a ∈ st2.attendance ∨ a.status = AttStatus.absent) := by
  refine ⟨runCreates_single c t d calls st hday hinv, ?_, ?_⟩
  · intro st2 now sec s h
    obtain ⟨hatt, hlen, _⟩ := createSession_reactivate_step st2 c t now sec s h
    refine ⟨?_, hatt, hlen⟩
    unfold createSession
    rw [h]
  · intro st2 now sec h
    exact (createSession_fresh_step st2 c t now sec h).2

/-- Witness for C3 at concrete inputs: two same-day `startSession` calls
over the empty store `stW` leave a single session row for the key. -/
theorem c3_witness :
    countKey (runCreates stW 10 20 [(100, "a"), (200, "b")]).sessions 10 20 0 ≤ 1 :=
  ((c3_single_session_per_day 10 20 0 [(100, "a"), (200, "b")] stW
    (by decide) (by decide)).1).1

end Markly
